import Mathlib

/-!
Verification of the GRANDMAS grading engine
(src/backend/grading/grading_engine.js) against its specification.

The JavaScript module is shallowly embedded. JSON payloads (the loosely
typed correct_answer / response_data / options columns) become the
inductive type JVal, table rows become structures, JavaScript numbers
become rationals (the arithmetic the engine performs is modelled exactly
in the rationals), and the sequence of database writes a handler performs
becomes an explicit state transformation. The text-similarity scorer is an
external library (natural + string-similarity), so the short-answer grader
is parameterised by an arbitrary similarity function.
-/

namespace Grandmas

/-- A JSON value: the shape of the loosely typed correct_answer,
response_data and options columns consumed by the grading strategies. -/
inductive JVal where
  | jnull
  | jbool (b : Bool)
  | jnum (q : ℚ)
  | jstr (s : String)
  | jarr (elems : List JVal)
  | jobj (fields : List (String × JVal))

mutual

/-- Structural equality of JSON payloads, the meaning of the
JSON.stringify comparison and of the strict equality the source applies
to payload elements. -/
def JVal.beq : JVal → JVal → Bool
  | .jnull, .jnull => true
  | .jbool a, .jbool b => a == b
  | .jnum a, .jnum b => a == b
  | .jstr a, .jstr b => a == b
  | .jarr as, .jarr bs => JVal.beqList as bs
  | .jobj as, .jobj bs => JVal.beqObj as bs
  | _, _ => false

/-- Element-wise equality of JSON arrays. -/
def JVal.beqList : List JVal → List JVal → Bool
  | [], [] => true
  | a :: as, b :: bs => JVal.beq a b && JVal.beqList as bs
  | _, _ => false

/-- Field-wise equality of JSON objects. -/
def JVal.beqObj : List (String × JVal) → List (String × JVal) → Bool
  | [], [] => true
  | (k, v) :: as, (l, w) :: bs => k == l && JVal.beq v w && JVal.beqObj as bs
  | _, _ => false

end

instance : BEq JVal := ⟨JVal.beq⟩

/-- JavaScript truthiness of a JSON value (NaN is not modelled; objects and
arrays are truthy, null / false / 0 / empty string are falsy). -/
def JVal.truthy : JVal → Bool
  | .jnull => false
  | .jbool b => b
  | .jnum q => decide (q ≠ 0)
  | .jstr s => decide (s ≠ "")
  | .jarr _ => true
  | .jobj _ => true

/-- Object.entries of a JSON value. Non-object values yield no entries
(the source only reaches this on object-shaped payloads). -/
def JVal.entries : JVal → List (String × JVal)
  | .jobj fs => fs
  | _ => []

/-- Property lookup v[k]; none plays the role of undefined. -/
def JVal.getField (v : JVal) (k : String) : Option JVal :=
  (v.entries.find? (fun p => p.1 == k)).map (fun p => p.2)

/-- The JavaScript expression (v || d) for an optional numeric field:
a present but zero value still falls back to the default. -/
def jsOrQ (v : Option ℚ) (d : ℚ) : ℚ :=
  match v with
  | some q => if q = 0 then d else q
  | none => d

/-- Math.round: round half upward (floor of x + 1/2). -/
def jsRound (q : ℚ) : ℚ := ((⌊q + 1/2⌋ : ℤ) : ℚ)

/-- Math.round(x * 100) / 100, the two-decimal rounding used by the
multiple-answer, matching and fill-in-blank strategies. -/
def round2 (q : ℚ) : ℚ := jsRound (q * 100) / 100

/-- Grading hints carried in question.metadata (data model section 3 of the
spec). The production query in gradeSubmission (lines 74-84) selects no
metadata column, but the strategies are specified and written as pure
functions of the full question record, so the row model keeps the field. -/
structure Metadata where
  requiresManualGrading : Bool := false
  caseSensitive : Bool := false
  alwaysReview : Bool := false
  reviewThreshold : Option ℚ := none
  similarityThreshold : Option ℚ := none
  tolerance : Option ℚ := none
  type : Option String := none
  reviewIncorrect : Bool := false
deriving DecidableEq

/-- Outcome of one grading strategy: score, feedback, manual-review flag. -/
structure GradeOut where
  score : ℚ
  feedback : String
  needsManualGrading : Bool
deriving DecidableEq

/-- toLowerCase over the character list (the ASCII behaviour of the
JavaScript call on the data in play). -/
def lowerString (s : String) : String := ⟨s.data.map Char.toLower⟩

/-- A whitespace character as trimmed by String.prototype.trim. -/
def isSpaceChar (c : Char) : Bool := c == ' ' || c == '\t' || c == '\n' || c == '\r'

/-- trim over the character list: drop whitespace from both ends. -/
def trimString (s : String) : String :=
  ⟨((s.data.dropWhile isSpaceChar).reverse.dropWhile isSpaceChar).reverse⟩

/-- compareAnswers (lines 534-545): lowercase both sides unless the
comparison is case sensitive, trim whitespace, then exact equality. -/
def compareAnswers (studentAnswer correctAnswer : String) (caseSensitive : Bool) : Bool :=
  let s := if caseSensitive then studentAnswer else lowerString studentAnswer
  let c := if caseSensitive then correctAnswer else lowerString correctAnswer
  trimString s == trimString c

/-- gradeMultipleChoice (lines 205-216), also used for true_false.
JSON.stringify equality of well-formed values is value equality. -/
def gradeMultipleChoice (correct_answer response_data : JVal) (points : ℚ) : ℚ × String :=
  if correct_answer == response_data then (points, "Correct answer")
  else (0, "Incorrect answer")

/-- gradeMultipleAnswer (lines 224-268). options is the question's option
list when array-shaped; a falsy options column falls back to
correctAnswers.length + 2 exactly as the source does. -/
def gradeMultipleAnswer (correct_answer response_data options : JVal) (points : ℚ) : ℚ × String :=
  match correct_answer, response_data with
  | .jarr correctAnswers, .jarr studentAnswers =>
    let correctSelections := (studentAnswers.filter (fun a => correctAnswers.contains a)).length
    let incorrectSelections := (studentAnswers.filter (fun a => !(correctAnswers.contains a))).length
    let missedCorrect := (correctAnswers.filter (fun a => !(studentAnswers.contains a))).length
    let totalOptions : ℚ := match options with
      | .jarr os => (os.length : ℚ)
      | _ => (correctAnswers.length : ℚ) + 2
    let correctDecisions : ℚ := totalOptions - (incorrectSelections : ℚ) - (missedCorrect : ℚ)
    let score := max 0 ((correctDecisions / totalOptions) * points)
    let feedback :=
      if correctSelections = correctAnswers.length ∧ incorrectSelections = 0 then
        "All correct options selected"
      else if incorrectSelections > 0 ∧ missedCorrect > 0 then
        "Some incorrect options selected and some correct options missed"
      else if incorrectSelections > 0 then "Some incorrect options selected"
      else if missedCorrect > 0 then "Some correct options missed"
      else ""
    (round2 score, feedback)
  | _, _ => (0, "Invalid answer format")

/-- gradeMatching (lines 276-301). The source checks truthiness of the two
payloads and then iterates Object.entries; non-object truthy payloads
(never produced by the authoring flow) are modelled as having no entries. -/
def gradeMatching (correct_answer response_data : JVal) (points : ℚ) : ℚ × String :=
  if !correct_answer.truthy || !response_data.truthy then (0, "Invalid answer format")
  else
    let studentMatches := response_data.entries
    let totalMatches := correct_answer.entries.length
    let correctCount :=
      (studentMatches.filter (fun p => correct_answer.getField p.1 == some p.2)).length
    let score := ((correctCount : ℚ) / (totalMatches : ℚ)) * points
    (round2 score,
     toString correctCount ++ " out of " ++ toString totalMatches ++ " matches correct")

/-- One blank comparison step of gradeFillInBlank. compareAnswers in the
source calls toLowerCase and so assumes string arguments; non-string shapes
would throw in JavaScript and are modelled as a non-match (no claim
exercises them). -/
def blankMatches (metadata : Metadata) (studentAnswer correctAnswer : JVal) : Bool :=
  match studentAnswer, correctAnswer with
  | .jstr s, .jstr c => compareAnswers s c metadata.caseSensitive
  | _, _ => false

/-- The per-entry check of the counting loop in gradeFillInBlank
(lines 336-366): a missing or falsy student answer is incorrect, an
array-shaped accepted answer matches through any alternative, any other
accepted answer is compared directly. -/
def fibBlankCorrect (metadata : Metadata) (response_data : JVal) (entry : String × JVal) : Bool :=
  match response_data.getField entry.1 with
  | none => false
  | some sv =>
    if !sv.truthy then false
    else match entry.2 with
      | .jarr alts => alts.any (fun a => blankMatches metadata sv a)
      | v => blankMatches metadata sv v

/-- gradeFillInBlank (lines 309-390). -/
def gradeFillInBlank (correct_answer response_data : JVal) (points : ℚ)
    (metadata : Metadata) : GradeOut :=
  if !correct_answer.truthy || !response_data.truthy then
    ⟨0, "Invalid answer format", false⟩
  else if metadata.requiresManualGrading then
    ⟨0, "This response requires manual grading", true⟩
  else
    let entries := correct_answer.entries
    let totalBlanks := entries.length
    let correctCount := (entries.filter (fibBlankCorrect metadata response_data)).length
    let score := ((correctCount : ℚ) / (totalBlanks : ℚ)) * points
    let feedback :=
      if correctCount = totalBlanks then "All answers correct"
      else if correctCount = 0 then "All answers incorrect"
      else toString correctCount ++ " out of " ++ toString totalBlanks ++ " answers correct"
    let needsManualGrading := metadata.alwaysReview ||
      (match metadata.reviewThreshold with
       | some rt => decide (rt ≠ 0) && decide (((correctCount : ℚ) / (totalBlanks : ℚ)) < rt)
       | none => false)
    ⟨round2 score, feedback, needsManualGrading⟩

/-- gradeShortAnswer (lines 398-448), parameterised by the external
similarity scorer (calculateTextSimilarity wraps the natural and
string-similarity libraries, which are outside this repository). The
scorer is applied to (student answer, correct answer) in source order;
it assumes string payloads, so non-string truthy payloads (which would
throw in JavaScript) are modelled as similarity 0. -/
def gradeShortAnswer (simf : String → String → ℚ) (correct_answer response_data : JVal)
    (points : ℚ) (metadata : Metadata) : GradeOut :=
  if !correct_answer.truthy || !response_data.truthy then
    ⟨0, "Invalid answer format", false⟩
  else if metadata.requiresManualGrading then
    ⟨0, "This response requires manual grading", true⟩
  else
    let similarity := match response_data, correct_answer with
      | .jstr s, .jstr c => simf s c
      | _, _ => 0
    let threshold := jsOrQ metadata.similarityThreshold (4/5)
    if similarity ≥ threshold then
      ⟨points, "Answer matches expected response", metadata.alwaysReview⟩
    else if similarity ≥ threshold * (7/10) then
      ⟨points * (1/2), "Answer partially matches expected response", true⟩
    else
      ⟨0, "Answer does not match expected response", true⟩

/-- parseFloat of a payload: numbers pass through, anything else becomes
NaN in JavaScript, whose comparisons are all false; none models that.
(Numeric strings are not exercised by any claim.) -/
def parseNum : JVal → Option ℚ
  | .jnum q => some q
  | _ => none

/-- gradeComputational (lines 456-507). -/
def gradeComputational (correct_answer response_data : JVal) (points : ℚ)
    (metadata : Metadata) : GradeOut :=
  if !correct_answer.truthy || !response_data.truthy then
    ⟨0, "Invalid answer format", false⟩
  else if metadata.requiresManualGrading then
    ⟨0, "This response requires manual grading", true⟩
  else if metadata.type = some "numeric" then
    let tolerance := jsOrQ metadata.tolerance 0
    let isCorrect := match parseNum response_data, parseNum correct_answer with
      | some s, some c => decide (|s - c| ≤ tolerance)
      | _, _ => false
    ⟨if isCorrect then points else 0,
     if isCorrect then "Correct answer" else "Incorrect answer",
     !isCorrect && metadata.reviewIncorrect⟩
  else if metadata.type = some "formula" then
    ⟨0, "Formula evaluation requires manual grading", true⟩
  else
    ⟨0, "This computational question requires manual grading", true⟩

/-- gradeCoding (lines 515-524): always deferred to manual grading. -/
def gradeCoding : GradeOut :=
  ⟨0, "Code evaluation requires manual grading or test case execution", true⟩

/-- A question_responses row joined to its question for one submission
(there is at most one response per (submission, question) pair). -/
structure RespRow where
  response_id : Nat
  response_data : JVal
  score : Option ℚ := none
  feedback : String := ""
  graded_by : Option Nat := none

/-- One row of the questions query of gradeSubmission (lines 74-84): a
question of the assignment together with its response for the submission,
when one exists (LEFT JOIN). -/
structure QRow where
  question_id : Nat
  question_type : String
  points : ℚ
  correct_answer : JVal
  options : JVal := .jnull
  metadata : Metadata := {}
  response : Option RespRow := none

/-- A submissions row (the grading engine reads and mutates status,
total_score and graded_by; timestamps are not modelled). -/
structure SubmissionRow where
  submission_id : Nat
  assignment_id : Nat
  student_id : Nat
  status : String
  total_score : Option ℚ := none
  graded_by : Option Nat := none
deriving DecidableEq

/-- The stored state touched by grading one submission: the submission row,
its assignment's total_points, and the assignment's questions (in
order_num order, as the query returns them) with their responses. -/
structure GState where
  submission : SubmissionRow
  assignment_total_points : ℚ
  questions : List QRow

/-- One element of the gradingResults array the handler returns. -/
structure GradingResult where
  questionId : Nat
  responseId : Option Nat
  score : ℚ
  feedback : String
  needsManualGrading : Bool
deriving DecidableEq

/-- The 200 body of gradeSubmission. -/
structure GradeOk where
  submissionId : Nat
  totalScore : ℚ
  maxPoints : ℚ
  needsManualGrading : Bool
  gradingResults : List GradingResult
deriving DecidableEq

/-- An HTTP-shaped handler outcome: statusCode plus message, or a 200 body. -/
inductive GradeResponse where
  | err (statusCode : Nat) (message : String)
  | ok (body : GradeOk)
deriving DecidableEq

/-- The type dispatch of gradeSubmission (lines 110-144). For true_false,
multiple_choice, multiple_answer and matching the switch destructures only
score and feedback, so needsManualGrading keeps its initial value false.
Unknown types (essay, diagram, oral, ...) fall to the default arm. -/
def gradeQuestion (simf : String → String → ℚ) (q : QRow) (r : RespRow) : GradeOut :=
  match q.question_type with
  | "true_false" | "multiple_choice" =>
    let p := gradeMultipleChoice q.correct_answer r.response_data q.points
    ⟨p.1, p.2, false⟩
  | "multiple_answer" =>
    let p := gradeMultipleAnswer q.correct_answer r.response_data q.options q.points
    ⟨p.1, p.2, false⟩
  | "matching" =>
    let p := gradeMatching q.correct_answer r.response_data q.points
    ⟨p.1, p.2, false⟩
  | "fill_in_blank" => gradeFillInBlank q.correct_answer r.response_data q.points q.metadata
  | "short_answer" => gradeShortAnswer simf q.correct_answer r.response_data q.points q.metadata
  | "computational" => gradeComputational q.correct_answer r.response_data q.points q.metadata
  | "coding" => gradeCoding
  | _ => ⟨0, "This question type requires manual grading", true⟩

/-- The per-question loop of gradeSubmission (lines 92-165): a question
without a response yields a zero result and no write; otherwise the
strategy runs and, when no manual review is needed, the response row is
updated with score and feedback and the score joins the running total.
Returns the updated rows, the gradingResults, and totalScore. -/
def gradeLoop (simf : String → String → ℚ) :
    List QRow → List QRow × List GradingResult × ℚ
  | [] => ([], [], 0)
  | q :: rest =>
    match q.response with
    | none =>
      let out := gradeLoop simf rest
      (q :: out.1,
       ⟨q.question_id, none, 0, "No response provided", false⟩ :: out.2.1,
       out.2.2)
    | some r =>
      let g := gradeQuestion simf q r
      let q' := if g.needsManualGrading then q
                else { q with response := some { r with score := some g.score, feedback := g.feedback } }
      let out := gradeLoop simf rest
      (q' :: out.1,
       ⟨q.question_id, some r.response_id, g.score, g.feedback, g.needsManualGrading⟩ :: out.2.1,
       (if g.needsManualGrading then 0 else g.score) + out.2.2)

/-- gradeSubmission (lines 34-197). none models a submissionId that matches
no submissions row. The status check precedes every write, so a rejected
call leaves the state untouched. After the loop, the submission is
finalized exactly when no result was flagged for manual grading. -/
def gradeSubmission (simf : String → String → ℚ) (st? : Option GState) :
    GradeResponse × Option GState :=
  match st? with
  | none => (.err 404 "Submission not found", none)
  | some st =>
    if st.submission.status = "graded" then
      (.err 400 "Submission is already graded", some st)
    else
      let out := gradeLoop simf st.questions
      let anyManual := out.2.1.any (fun r => r.needsManualGrading)
      let sub' := if anyManual then st.submission
                  else { st.submission with status := "graded", total_score := some out.2.2 }
      (.ok ⟨st.submission.submission_id, out.2.2, st.assignment_total_points, anyManual, out.2.1⟩,
       some { st with submission := sub', questions := out.1 })

/-- The sum of all stored Response.score values for the submission (a
response without a score yet contributes nothing). -/
def responseScoreSum (qs : List QRow) : ℚ :=
  (qs.map (fun q => ((q.response.bind (fun r => r.score)).getD 0))).sum

/-- Intermediate state of the fault-injected grading loop. -/
structure LoopState where
  budget : Nat
  questions : List QRow
  results : List GradingResult
  total : ℚ
  failed : Bool

/-- Fault-injection model of the persistence performed by the grading
loop. In the source every score is persisted by its own pool.query UPDATE
and no BEGIN/COMMIT appears anywhere in the module, so each write commits
independently; budget is the number of writes the storage layer performs
before throwing. A failed write aborts the run (the exception propagates
to the catch block) and leaves this and all later rows unwritten, while
all earlier writes stay committed. -/
def gradeLoopFail (simf : String → String → ℚ) :
    Nat → List QRow → LoopState
  | b, [] => ⟨b, [], [], 0, false⟩
  | b, q :: rest =>
    match q.response with
    | none =>
      let out := gradeLoopFail simf b rest
      { out with questions := q :: out.questions,
                 results := ⟨q.question_id, none, 0, "No response provided", false⟩ :: out.results }
    | some r =>
      let g := gradeQuestion simf q r
      if g.needsManualGrading then
        let out := gradeLoopFail simf b rest
        { out with questions := q :: out.questions,
                   results := ⟨q.question_id, some r.response_id, g.score, g.feedback, true⟩ :: out.results }
      else
        match b with
        | 0 => ⟨0, q :: rest, [], 0, true⟩
        | b' + 1 =>
          let q' := { q with response := some { r with score := some g.score, feedback := g.feedback } }
          let out := gradeLoopFail simf b' rest
          { out with questions := q' :: out.questions,
                     results := ⟨q.question_id, some r.response_id, g.score, g.feedback, false⟩ :: out.results,
                     total := g.score + out.total }

/-- gradeSubmission under the fault-injection model: a storage failure
during the run surfaces as the generic 500 of the catch block (lines
190-196) while every write that preceded it stays committed. The final
submission UPDATE consumes one write as well. -/
def gradeSubmissionFail (simf : String → String → ℚ) (budget : Nat) (st : GState) :
    GradeResponse × GState :=
  if st.submission.status = "graded" then
    (.err 400 "Submission is already graded", st)
  else
    let out := gradeLoopFail simf budget st.questions
    if out.failed then
      (.err 500 "Internal server error", { st with questions := out.questions })
    else if out.results.any (fun r => r.needsManualGrading) then
      (.ok ⟨st.submission.submission_id, out.total, st.assignment_total_points, true, out.results⟩,
       { st with questions := out.questions })
    else
      match out.budget with
      | 0 => (.err 500 "Internal server error", { st with questions := out.questions })
      | _ + 1 =>
        (.ok ⟨st.submission.submission_id, out.total, st.assignment_total_points, false, out.results⟩,
         { st with
             submission := { st.submission with status := "graded", total_score := some out.total },
             questions := out.questions })

/-- The rows of the aggregate query of manualGradeQuestion (lines
590-601): submissions x questions x question_responses joined for the
submission, then filtered by qr.response_id = responseId, so only the
just-graded response survives the WHERE clause. -/
def mgqRows (st : GState) (responseId : Nat) : List RespRow :=
  st.questions.filterMap (fun q =>
    q.response.bind (fun r => if r.response_id = responseId then some r else none))

/-- manualGradeQuestion (lines 569-628): write the human-assigned score,
feedback and grader onto the target response, then run the aggregate
query and finalize the submission when its counts agree. score is the
posted score (none models a JSON null, which passes the undefined check
of line 574); a responseId of 0 is falsy and is rejected up front. -/
def manualGradeQuestion (responseId : Nat) (score : Option ℚ) (feedback : String)
    (graderId : Nat) (st : GState) : GState :=
  if responseId = 0 then st
  else
    let st1 : GState := { st with questions := st.questions.map (fun q =>
      match q.response with
      | some r =>
        if r.response_id = responseId then
          { q with response := some { r with score := score, feedback := feedback,
                                             graded_by := some graderId } }
        else q
      | none => q) }
    let rows := mgqRows st1 responseId
    if rows.isEmpty then st1
    else
      let totalQuestions := rows.length
      let gradedQuestions := (rows.filter (fun r => r.score.isSome)).length
      let totalScore := (rows.map (fun r => r.score.getD 0)).sum
      if totalQuestions = gradedQuestions then
        let sub' := { st1.submission with
          status := "graded", total_score := some totalScore, graded_by := some graderId }
        { st1 with submission := sub' }
      else st1

/-- An assignment_categories row. -/
structure CategoryRow where
  category_id : Nat
  course_id : Nat
  name : String
  weight : ℚ
deriving DecidableEq

/-- An assignments row as seen by the aggregation engine. -/
structure AssignmentRec where
  assignment_id : Nat
  category_id : Nat
  title : String
  total_points : ℚ
  is_published : Bool
deriving DecidableEq

/-- A submissions row as seen by the aggregation engine. -/
structure SubmissionRec where
  assignment_id : Nat
  student_id : Nat
  status : String
  total_score : Option ℚ
deriving DecidableEq

/-- A grading_scale_thresholds row: letter grade with min and max score. -/
structure ThresholdRow where
  grade : String
  min_score : ℚ
  max_score : ℚ
deriving DecidableEq

/-- An enrollments row carrying the persisted final grade. -/
structure EnrollmentRow where
  student_id : Nat
  course_id : Nat
  final_grade : Option ℚ
deriving DecidableEq

/-- The stored state read and written by calculateFinalGrade. scale holds
the course's thresholds ordered by min_score descending, exactly as the
query of lines 728-736 returns them. -/
structure CourseDB where
  categories : List CategoryRow
  assignments : List AssignmentRec
  submissions : List SubmissionRec
  scale : List ThresholdRow
  enrollments : List EnrollmentRow
deriving DecidableEq

/-- The per-category assignments query (lines 671-678): published
assignments of the category, LEFT JOINed to the student's graded
submission (the data model allows at most one submission per (student,
assignment), so the join contributes at most one total_score). -/
def assignmentRows (db : CourseDB) (studentId catId : Nat) :
    List (AssignmentRec × Option ℚ) :=
  (db.assignments.filter (fun a => a.category_id == catId && a.is_published)).map (fun a =>
    (a, (db.submissions.find? (fun s =>
          s.assignment_id == a.assignment_id && s.student_id == studentId &&
          s.status == "graded")).bind (fun s => s.total_score)))

/-- One element of the categoryGrades breakdown. -/
structure CategoryGrade where
  categoryId : Nat
  name : String
  weight : ℚ
  percentage : ℚ
  weightedScore : ℚ
deriving DecidableEq

/-- The per-category computation of calculateFinalGrade (lines 669-725):
a category with no eligible assignments contributes percentage 0 and
weighted score 0; otherwise earnedPoints sums total_score with a null
coalesced to 0 and percentage guards against a zero denominator. -/
def gradeCategory (db : CourseDB) (studentId : Nat) (cat : CategoryRow) : CategoryGrade :=
  let rows := assignmentRows db studentId cat.category_id
  if rows.isEmpty then ⟨cat.category_id, cat.name, cat.weight, 0, 0⟩
  else
    let totalPoints := (rows.map (fun r => r.1.total_points)).sum
    let earnedPoints := (rows.map (fun r => r.2.getD 0)).sum
    let categoryPercentage := if totalPoints > 0 then (earnedPoints / totalPoints) * 100 else 0
    ⟨cat.category_id, cat.name, cat.weight, categoryPercentage,
     (categoryPercentage / 100) * cat.weight⟩

/-- The letter-grade loop of calculateFinalGrade (lines 738-750): walk the
thresholds in stored order and return the first whose closed interval
contains the grade; null when none matches (including an empty scale). -/
def resolveLetterGrade : List ThresholdRow → ℚ → Option String
  | [], _ => none
  | t :: ts, g =>
    if t.min_score ≤ g ∧ g ≤ t.max_score then some t.grade
    else resolveLetterGrade ts g

/-- The 200 body of calculateFinalGrade. -/
structure FinalGradeOk where
  studentId : Nat
  courseId : Nat
  finalGrade : ℚ
  letterGrade : Option String
  categoryGrades : List CategoryGrade
deriving DecidableEq

/-- Handler outcome of calculateFinalGrade. -/
inductive FinalGradeResponse where
  | err (statusCode : Nat) (message : String)
  | ok (body : FinalGradeOk)
deriving DecidableEq

/-- calculateFinalGrade (lines 636-777): reject a course without
assignment categories with a 404 before anything is computed or written;
otherwise aggregate the weighted category scores, resolve the letter
grade, and persist the final grade into the student's enrollment. -/
def calculateFinalGrade (db : CourseDB) (studentId courseId : Nat) :
    FinalGradeResponse × CourseDB :=
  let categories := db.categories.filter (fun c => c.course_id == courseId)
  if categories.isEmpty then
    (.err 404 "No assignment categories found for this course", db)
  else
    let categoryGrades := categories.map (gradeCategory db studentId)
    let finalGrade := (categoryGrades.map (fun c => c.weightedScore)).sum
    let letterGrade := resolveLetterGrade db.scale finalGrade
    let db' := { db with enrollments := db.enrollments.map (fun e =>
      if e.student_id == studentId && e.course_id == courseId then
        { e with final_grade := some finalGrade }
      else e) }
    (.ok ⟨studentId, courseId, finalGrade, letterGrade, categoryGrades⟩, db')

/-- The denominator of the specification's category formula: total_points
summed over the published assignments of the category. -/
def specTotalPoints (db : CourseDB) (catId : Nat) : ℚ :=
  ((db.assignments.filter (fun a => a.category_id == catId && a.is_published)).map
    (fun a => a.total_points)).sum

/-- The numerator of the specification's category formula: the student's
totalScore summed over graded submissions of the category's published
assignments, an ungraded or missing submission contributing 0. -/
def specEarnedPoints (db : CourseDB) (studentId catId : Nat) : ℚ :=
  ((db.assignments.filter (fun a => a.category_id == catId && a.is_published)).map
    (fun a => ((db.submissions.find? (fun s =>
        s.assignment_id == a.assignment_id && s.student_id == studentId &&
        s.status == "graded")).bind (fun s => s.total_score)).getD 0)).sum

/-- The category percentage as the specification words it: earned over
total times 100, and 0 when the denominator is 0. -/
def specPct (db : CourseDB) (studentId catId : Nat) : ℚ :=
  if specTotalPoints db catId = 0 then 0
  else specEarnedPoints db studentId catId / specTotalPoints db catId * 100

/-- The per-blank correctness criterion as the specification words it: the
blank's student answer, when present and non-empty, is compared (with
compareAnswers, case-insensitive unless overridden) against the single
accepted answer or against any of the accepted alternatives. -/
def specBlankCorrect (metadata : Metadata) (resp : List (String × JVal))
    (e : String × JVal) : Bool :=
  match (JVal.jobj resp).getField e.1 with
  | some (.jstr s) =>
    decide (s ≠ "") &&
    (match e.2 with
     | .jarr alts => alts.any (fun a =>
         match a with
         | .jstr acc => compareAnswers s acc metadata.caseSensitive
         | _ => false)
     | .jstr acc => compareAnswers s acc metadata.caseSensitive
     | _ => false)
  | _ => false

/-- A constant similarity scorer, used to instantiate theorems that are
quantified over the external text-similarity function. -/
def simfW (v : ℚ) : String → String → ℚ := fun _ _ => v

/-- A multiple-choice question flagged requiresManualGrading, with a
matching response: concrete input for the claim that the flag
short-circuits every question type. -/
def qMC : QRow :=
  { question_id := 1, question_type := "multiple_choice", points := 5,
    correct_answer := .jstr "A", metadata := { requiresManualGrading := true } }

/-- The response paired with qMC. -/
def rMC : RespRow := { response_id := 1, response_data := .jstr "A" }

/-- A fill-in-blank question flagged requiresManualGrading, with truthy
payloads on both sides. -/
def qFIB : QRow :=
  { question_id := 2, question_type := "fill_in_blank", points := 5,
    correct_answer := .jobj [("b1", .jstr "x")],
    metadata := { requiresManualGrading := true } }

/-- The response paired with qFIB. -/
def rFIB : RespRow := { response_id := 2, response_data := .jobj [("b1", .jstr "y")] }

/-- A submission with two auto-gradable multiple-choice responses: the
input on which a storage failure during the second write exhibits a
committed first score. -/
def stC5 : GState :=
  { submission := { submission_id := 2, assignment_id := 2, student_id := 1,
                    status := "submitted" },
    assignment_total_points := 10,
    questions :=
      [ { question_id := 1, question_type := "multiple_choice", points := 5,
          correct_answer := .jstr "A",
          response := some { response_id := 1, response_data := .jstr "A" } },
        { question_id := 2, question_type := "multiple_choice", points := 5,
          correct_answer := .jstr "B",
          response := some { response_id := 2, response_data := .jstr "B" } } ] }

/-- A submission with two essay responses, neither yet scored: the input
on which manualGradeQuestion finalizes after a single manual grade. -/
def stC9 : GState :=
  { submission := { submission_id := 1, assignment_id := 1, student_id := 1,
                    status := "submitted" },
    assignment_total_points := 20,
    questions :=
      [ { question_id := 1, question_type := "essay", points := 10, correct_answer := .jnull,
          response := some { response_id := 1, response_data := .jstr "first essay" } },
        { question_id := 2, question_type := "essay", points := 10, correct_answer := .jnull,
          response := some { response_id := 2, response_data := .jstr "second essay" } } ] }

/-- An already finalized submission. -/
def stGraded : GState :=
  { submission := { submission_id := 3, assignment_id := 1, student_id := 1,
                    status := "graded", total_score := some 7 },
    assignment_total_points := 10,
    questions := [] }

/-- A submission with a single correctly answered true/false question. -/
def stC1w : GState :=
  { submission := { submission_id := 4, assignment_id := 3, student_id := 2,
                    status := "submitted" },
    assignment_total_points := 5,
    questions :=
      [ { question_id := 7, question_type := "true_false", points := 5,
          correct_answer := .jbool true,
          response := some { response_id := 9, response_data := .jbool true } } ] }

/-- The specification's worked final-grade example: Homework weight 40
with submissions 10/10 and 8/10, Exams weight 60 with 45/50. -/
def dbEx : CourseDB :=
  { categories := [⟨1, 1, "Homework", 40⟩, ⟨2, 1, "Exams", 60⟩],
    assignments :=
      [⟨1, 1, "HW1", 10, true⟩, ⟨2, 1, "HW2", 10, true⟩, ⟨3, 2, "Exam1", 50, true⟩],
    submissions :=
      [⟨1, 1, "graded", some 10⟩, ⟨2, 1, "graded", some 8⟩, ⟨3, 1, "graded", some 45⟩],
    scale := [],
    enrollments := [⟨1, 1, none⟩] }

/-- A store whose only assignment category belongs to another course. -/
def dbEmptyCat : CourseDB :=
  { categories := [⟨5, 9, "Homework", 40⟩], assignments := [], submissions := [],
    scale := [], enrollments := [⟨1, 1, none⟩] }

/-- C6: gradeSubmission answers NotFound (404, no state) when the
submission does not exist, and rejects a submission already in status
graded with the AlreadyGraded conflict (surfaced by the source as 400
with message Submission is already graded) while leaving the stored
state untouched: the status check precedes every write, so a finalized
submission is never re-graded or overwritten. -/
theorem gradeSubmission_rejections (simf : String → String → ℚ) :
    gradeSubmission simf none = (.err 404 "Submission not found", none) ∧
    ∀ st : GState, st.submission.status = "graded" →
      gradeSubmission simf (some st) = (.err 400 "Submission is already graded", some st) := by
  constructor
  · rfl
  · intro st h
    simp [gradeSubmission, h]

/-- C6 witness: the rejection theorem applied to a missing submission and
to a concrete already-graded submission. -/
theorem gradeSubmission_rejections_witness :
    gradeSubmission (simfW 0) none = (.err 404 "Submission not found", none) ∧
    gradeSubmission (simfW 0) (some stGraded) =
      (.err 400 "Submission is already graded", some stGraded) :=
  ⟨(gradeSubmission_rejections (simfW 0)).1,
   (gradeSubmission_rejections (simfW 0)).2 stGraded rfl⟩

/-- C7: the letter-grade loop returns the grade of the first threshold in
the stored (descending-min) order whose closed interval contains the
final grade, and null when no threshold matches; with thresholds
A = [90, 100] and B = [80, 89.99] a final grade of 90 resolves to A. -/
theorem resolveLetterGrade_first_match :
    (∀ (ts : List ThresholdRow) (g : ℚ),
      resolveLetterGrade ts g =
        (ts.find? (fun t => decide (t.min_score ≤ g) && decide (g ≤ t.max_score))).map
          (fun t => t.grade)) ∧
    resolveLetterGrade [⟨"A", 90, 100⟩, ⟨"B", 80, 8999/100⟩] 90 = some "A" ∧
    resolveLetterGrade [] 90 = none := by
  refine ⟨?_, by decide, rfl⟩
  intro ts g
  induction ts with
  | nil => rfl
  | cons t ts ih =>
    by_cases h1 : t.min_score ≤ g <;> by_cases h2 : g ≤ t.max_score <;>
      simp [resolveLetterGrade, List.find?_cons, h1, h2, ih]

/-- C10: calculateFinalGrade on a course with no assignment categories
fails with 404 before computing or persisting anything: the returned
store, enrollments included, is exactly the input store. -/
theorem calculateFinalGrade_no_categories (db : CourseDB) (studentId courseId : Nat)
    (h : db.categories.filter (fun c => c.course_id == courseId) = []) :
    calculateFinalGrade db studentId courseId =
      (.err 404 "No assignment categories found for this course", db) := by
  simp [calculateFinalGrade, h]

/-- C10 witness: the 404 theorem applied to a store whose only category
belongs to a different course. -/
theorem calculateFinalGrade_no_categories_witness :
    calculateFinalGrade dbEmptyCat 1 1 =
      (.err 404 "No assignment categories found for this course", dbEmptyCat) :=
  calculateFinalGrade_no_categories dbEmptyCat 1 1 (by decide)

/-- C9: on a submission with two responses, neither scored, a single call
to manualGradeQuestion already finalizes the submission: status becomes
graded, totalScore becomes the one just-written score and graded_by the
grader, while the second question's response still has no score. The
aggregate query (lines 590-601) filters its join by the just-graded
response id, so its counts always agree; the claim (and the source's own
comments) say finalization requires every question to have a score. -/
theorem manualGradeQuestion_premature_finalize :
    (manualGradeQuestion 1 (some 10) "good work" 7 stC9).submission.status = "graded" ∧
    (manualGradeQuestion 1 (some 10) "good work" 7 stC9).submission.total_score = some 10 ∧
    (manualGradeQuestion 1 (some 10) "good work" 7 stC9).submission.graded_by = some 7 ∧
    ((manualGradeQuestion 1 (some 10) "good work" 7 stC9).questions.map
      (fun q => q.response.bind (fun r => r.score))) = [some 10, none] := by
  have h : (manualGradeQuestion 1 (some 10) "good work" 7 stC9).submission.total_score =
      some ((10:ℚ) + 0) := rfl
  refine ⟨rfl, ?_, rfl, by decide⟩
  rw [h]
  norm_num

/-- C5: grading is not transactional. On a submission with two
auto-gradable responses, a storage failure at the second write leaves the
first response's score committed (each pool.query UPDATE commits on its
own; the module opens no transaction) while the caller receives the
generic 500 and the submission row keeps its prior status and total. -/
theorem gradeSubmission_commits_despite_failure :
    (gradeSubmissionFail (simfW 0) 1 stC5).1 = .err 500 "Internal server error" ∧
    ((gradeSubmissionFail (simfW 0) 1 stC5).2.questions.map
      (fun q => q.response.bind (fun r => r.score))) = [some 5, none] ∧
    (gradeSubmissionFail (simfW 0) 1 stC5).2.submission = stC5.submission := by
  refine ⟨rfl, by decide, rfl⟩

/-- C4 counterexample: a multiple_choice question carrying
metadata.requiresManualGrading is not short-circuited: the dispatcher
runs gradeMultipleChoice and returns full credit with no manual flag,
not the claimed zero score with needsManualGrading true. -/
theorem requiresManual_ignored_multiple_choice :
    gradeQuestion (simfW 0) qMC rMC = ⟨5, "Correct answer", false⟩ ∧
    gradeQuestion (simfW 0) qMC rMC ≠ ⟨0, "This response requires manual grading", true⟩ := by
  refine ⟨by decide, by decide⟩

/-- C8 counterexample: with three blanks, one of them answered correctly
and points 1, the stored score is the two-decimal rounding 0.33, not the
claimed exact value 1/3. -/
theorem gradeFillInBlank_rounding_counterexample :
    (gradeFillInBlank (.jobj [("b1", .jstr "a"), ("b2", .jstr "b"), ("b3", .jstr "c")])
      (.jobj [("b1", .jstr "a"), ("b2", .jstr "x"), ("b3", .jstr "y")]) 1 {}).score =
      33/100 ∧
    (gradeFillInBlank (.jobj [("b1", .jstr "a"), ("b2", .jstr "b"), ("b3", .jstr "c")])
      (.jobj [("b1", .jstr "a"), ("b2", .jstr "x"), ("b3", .jstr "y")]) 1 {}).score ≠
      1/3 := by
  have h : (gradeFillInBlank (.jobj [("b1", .jstr "a"), ("b2", .jstr "b"), ("b3", .jstr "c")])
      (.jobj [("b1", .jstr "a"), ("b2", .jstr "x"), ("b3", .jstr "y")]) 1 {}).score =
      round2 (((1:ℕ):ℚ) / ((3:ℕ):ℚ) * 1) := rfl
  rw [h, round2, jsRound]
  norm_num

/-- C4 (amended): metadata.requiresManualGrading short-circuits the
fill_in_blank, short_answer and computational strategies (whenever both
payloads are truthy, so the invalid-format guard does not fire first),
returning zero score and needsManualGrading = true before the
type-specific algorithm; for true_false, multiple_choice, multiple_answer
and matching the flag is ignored and needsManualGrading is always false. -/
theorem requiresManual_short_circuit_amended (simf : String → String → ℚ)
    (q : QRow) (r : RespRow)
    (hty : q.question_type = "fill_in_blank" ∨ q.question_type = "short_answer" ∨
           q.question_type = "computational")
    (hflag : q.metadata.requiresManualGrading = true)
    (hca : q.correct_answer.truthy = true) (hrd : r.response_data.truthy = true) :
    gradeQuestion simf q r = ⟨0, "This response requires manual grading", true⟩ ∧
    ∀ (q2 : QRow) (r2 : RespRow),
      (q2.question_type = "true_false" ∨ q2.question_type = "multiple_choice" ∨
       q2.question_type = "multiple_answer" ∨ q2.question_type = "matching") →
      (gradeQuestion simf q2 r2).needsManualGrading = false := by
  constructor
  · obtain ⟨qid, qty, pts, ca, opts, md, resp⟩ := q
    obtain ⟨rid, rdata, rsc, rfb, rgb⟩ := r
    simp only at hty hflag hca hrd
    rcases hty with h | h | h <;> subst h <;>
      simp [gradeQuestion, gradeFillInBlank, gradeShortAnswer, gradeComputational,
            hca, hrd, hflag]
  · intro q2 r2 hty2
    obtain ⟨qid, qty, pts, ca, opts, md, resp⟩ := q2
    simp only at hty2
    rcases hty2 with h | h | h | h <;> subst h <;> simp [gradeQuestion]

/-- C4 witness: the amended theorem applied to a concrete flagged
fill-in-blank question (short-circuited) and to the concrete flagged
multiple-choice question (flag ignored). -/
theorem requiresManual_short_circuit_amended_witness :
    gradeQuestion (simfW 0) qFIB rFIB = ⟨0, "This response requires manual grading", true⟩ ∧
    (gradeQuestion (simfW 0) qMC rMC).needsManualGrading = false :=
  ⟨(requiresManual_short_circuit_amended (simfW 0) qFIB rFIB (Or.inl rfl) rfl rfl rfl).1,
   (requiresManual_short_circuit_amended (simfW 0) qFIB rFIB (Or.inl rfl) rfl rfl rfl).2
     qMC rMC (Or.inr (Or.inl rfl))⟩

/-- C3: for a short_answer question with no requiresManualGrading flag,
non-empty string payloads, a configured threshold that is not the falsy 0
(so the default of 0.8 applies exactly when none is configured), and a
non-negative threshold: similarity at or above the threshold yields the
full points with the review flag driven only by metadata.alwaysReview
(so similarity exactly at the threshold earns full credit with no flag
unless alwaysReview forces one); similarity in [0.7 x threshold,
threshold) yields half the points with the flag set; similarity below
0.7 x threshold yields zero with the flag set. -/
theorem gradeShortAnswer_bands (simf : String → String → ℚ) (ca sa : String)
    (points : ℚ) (metadata : Metadata)
    (hflag : metadata.requiresManualGrading = false)
    (hca : ca ≠ "") (hsa : sa ≠ "")
    (hth : metadata.similarityThreshold ≠ some 0)
    (hnn : 0 ≤ metadata.similarityThreshold.getD (4/5)) :
    (metadata.similarityThreshold.getD (4/5) ≤ simf sa ca →
      gradeShortAnswer simf (.jstr ca) (.jstr sa) points metadata =
        ⟨points, "Answer matches expected response", metadata.alwaysReview⟩) ∧
    ((7/10) * metadata.similarityThreshold.getD (4/5) ≤ simf sa ca →
      simf sa ca < metadata.similarityThreshold.getD (4/5) →
      gradeShortAnswer simf (.jstr ca) (.jstr sa) points metadata =
        ⟨points * (1/2), "Answer partially matches expected response", true⟩) ∧
    (simf sa ca < (7/10) * metadata.similarityThreshold.getD (4/5) →
      gradeShortAnswer simf (.jstr ca) (.jstr sa) points metadata =
        ⟨0, "Answer does not match expected response", true⟩) := by
  have hjs : jsOrQ metadata.similarityThreshold (4/5) =
      metadata.similarityThreshold.getD (4/5) := by
    cases h : metadata.similarityThreshold with
    | none => rfl
    | some t =>
      have ht : t ≠ 0 := by
        intro h0
        exact hth (by rw [h, h0])
      simp [jsOrQ, ht]
  have htruthy : JVal.truthy (.jstr ca) = true ∧ JVal.truthy (.jstr sa) = true := by
    constructor <;> simp [JVal.truthy, hca, hsa]
  refine ⟨?_, ?_, ?_⟩
  · intro h1
    simp [gradeShortAnswer, htruthy.1, htruthy.2, hflag, hjs, h1]
  · intro h1 h2
    have h2' : ¬ (metadata.similarityThreshold.getD (4/5) ≤ simf sa ca) := not_le.mpr h2
    have h1' : metadata.similarityThreshold.getD (4/5) * (7/10) ≤ simf sa ca := by
      calc metadata.similarityThreshold.getD (4/5) * (7/10)
          = (7/10) * metadata.similarityThreshold.getD (4/5) := by ring
        _ ≤ simf sa ca := h1
    simp [gradeShortAnswer, htruthy.1, htruthy.2, hflag, hjs, h2', h1']
  · intro h1
    have h1' : ¬ (metadata.similarityThreshold.getD (4/5) * (7/10) ≤ simf sa ca) := by
      rw [mul_comm]
      exact not_le.mpr h1
    have h2' : ¬ (metadata.similarityThreshold.getD (4/5) ≤ simf sa ca) := by
      refine not_le.mpr (lt_of_lt_of_le h1 ?_)
      calc (7/10) * metadata.similarityThreshold.getD (4/5)
          ≤ 1 * metadata.similarityThreshold.getD (4/5) := by
            apply mul_le_mul_of_nonneg_right (by norm_num) hnn
        _ = metadata.similarityThreshold.getD (4/5) := one_mul _
    simp [gradeShortAnswer, htruthy.1, htruthy.2, hflag, hjs, h1', h2']

/-- C3 witness: with the default threshold 0.8, a scorer returning exactly
0.8 earns full credit with no review flag, and a scorer returning 0.75
earns half credit with the review flag set. -/
theorem gradeShortAnswer_bands_witness :
    gradeShortAnswer (simfW (4/5)) (.jstr "Paris") (.jstr "paris city") 10 {} =
      ⟨10, "Answer matches expected response", false⟩ ∧
    gradeShortAnswer (simfW (3/4)) (.jstr "Paris") (.jstr "paris city") 10 {} =
      ⟨10 * (1/2), "Answer partially matches expected response", true⟩ :=
  ⟨(gradeShortAnswer_bands (simfW (4/5)) "Paris" "paris city" 10 {} rfl (by decide)
      (by decide) (by decide) (by norm_num)).1 (by norm_num [simfW]),
   (gradeShortAnswer_bands (simfW (3/4)) "Paris" "paris city" 10 {} rfl (by decide)
      (by decide) (by decide) (by norm_num)).2.1 (by norm_num [simfW]) (by norm_num [simfW])⟩

/-- A non-string student answer matches nothing (the source would throw
inside compareAnswers before producing a match). -/
theorem blankMatches_nonstr (metadata : Metadata) (sv : JVal)
    (hsv : ∀ s, sv ≠ JVal.jstr s) (a : JVal) :
    blankMatches metadata sv a = false := by
  cases sv with
  | jstr s => exact absurd rfl (hsv s)
  | jnull => cases a <;> rfl
  | jbool b => cases a <;> rfl
  | jnum q => cases a <;> rfl
  | jarr xs => cases a <;> rfl
  | jobj fs => cases a <;> rfl

/-- The accepted-answer branch of the blank check is uniformly false when
every single comparison is. -/
theorem blankBranch_nonstr (metadata : Metadata) (sv v2 : JVal)
    (hbm : ∀ a, blankMatches metadata sv a = false) :
    (match v2 with
     | .jarr alts => alts.any (fun a => blankMatches metadata sv a)
     | v => blankMatches metadata sv v) = false := by
  cases v2 with
  | jarr alts => simp [hbm]
  | jnull => exact hbm _
  | jbool b => exact hbm _
  | jnum q => exact hbm _
  | jstr s => exact hbm _
  | jobj fs => exact hbm _

/-- The counting loop of gradeFillInBlank marks a blank correct exactly
when the specification's per-blank criterion holds. -/
theorem fibBlankCorrect_eq_spec (metadata : Metadata) (resp : List (String × JVal))
    (e : String × JVal) :
    fibBlankCorrect metadata (.jobj resp) e = specBlankCorrect metadata resp e := by
  unfold fibBlankCorrect specBlankCorrect
  cases hg : (JVal.jobj resp).getField e.1 with
  | none => rfl
  | some sv =>
    cases sv with
    | jstr s =>
      by_cases hs : s = ""
      · subst hs
        simp [JVal.truthy]
      · have ht : JVal.truthy (.jstr s) = true := by simp [JVal.truthy, hs]
        have hd : decide (s ≠ "") = true := by simp [hs]
        simp only [ht, Bool.not_true, Bool.false_eq_true, if_false, hd, Bool.true_and]
        have hp : (fun a => blankMatches metadata (.jstr s) a) =
            (fun a => match a with
              | JVal.jstr acc => compareAnswers s acc metadata.caseSensitive
              | _ => false) := by
          funext a
          cases a <;> rfl
        cases e.2 with
        | jarr alts => rw [hp]
        | jnull => rfl
        | jbool b => rfl
        | jnum q => rfl
        | jstr acc => rfl
        | jobj fs => rfl
    | jnull => rfl
    | jbool b =>
      cases b with
      | false => rfl
      | true =>
        have hbm := blankMatches_nonstr metadata (.jbool true) (fun s h => JVal.noConfusion h)
        simp only [JVal.truthy, Bool.not_true, Bool.false_eq_true, if_false]
        exact blankBranch_nonstr metadata _ _ hbm
    | jnum q =>
      by_cases hq : q = 0
      · subst hq
        simp [JVal.truthy]
      · have hbm := blankMatches_nonstr metadata (.jnum q) (fun s h => JVal.noConfusion h)
        have ht : JVal.truthy (.jnum q) = true := by simp [JVal.truthy, hq]
        simp only [ht, Bool.not_true, Bool.false_eq_true, if_false]
        exact blankBranch_nonstr metadata _ _ hbm
    | jarr xs =>
      have hbm := blankMatches_nonstr metadata (.jarr xs) (fun s h => JVal.noConfusion h)
      simp only [JVal.truthy, Bool.not_true, Bool.false_eq_true, if_false]
      exact blankBranch_nonstr metadata _ _ hbm
    | jobj fs =>
      have hbm := blankMatches_nonstr metadata (.jobj fs) (fun s h => JVal.noConfusion h)
      simp only [JVal.truthy, Bool.not_true, Bool.false_eq_true, if_false]
      exact blankBranch_nonstr metadata _ _ hbm

/-- C8 (amended): for a fill-in-blank question without the
requiresManualGrading flag, each blank counts as correct exactly under the
specification's criterion (present, non-empty student answer compared
case-insensitively unless metadata.caseSensitive overrides, against the
single accepted answer or any accepted alternative; a missing answer is
incorrect); the stored score is correctBlanks/totalBlanks x points rounded
to two decimal places (Math.round half-up), and needsManualGrading holds
exactly when metadata.alwaysReview is set or a configured non-zero
reviewThreshold exceeds the correct fraction. -/
theorem gradeFillInBlank_amended (blanks resp : List (String × JVal)) (points : ℚ)
    (metadata : Metadata) (hflag : metadata.requiresManualGrading = false)
    (_hne : blanks ≠ []) :
    (gradeFillInBlank (.jobj blanks) (.jobj resp) points metadata).score =
      round2 ((((blanks.filter (specBlankCorrect metadata resp)).length : ℕ) : ℚ) /
              ((blanks.length : ℕ) : ℚ) * points) ∧
    (gradeFillInBlank (.jobj blanks) (.jobj resp) points metadata).needsManualGrading =
      (metadata.alwaysReview ||
        match metadata.reviewThreshold with
        | some rt => decide (rt ≠ 0) &&
            decide ((((blanks.filter (specBlankCorrect metadata resp)).length : ℕ) : ℚ) /
                    ((blanks.length : ℕ) : ℚ) < rt)
        | none => false) := by
  have hfil : blanks.filter (fibBlankCorrect metadata (.jobj resp)) =
      blanks.filter (specBlankCorrect metadata resp) :=
    List.filter_congr (fun a _ => fibBlankCorrect_eq_spec metadata resp a)
  constructor <;>
    simp only [gradeFillInBlank, JVal.truthy, JVal.entries, hflag, hfil, Bool.not_true,
      Bool.or_self, Bool.false_eq_true, if_false]

/-- C8 witness: the specification's example, accepted alternatives Paris
and paris with student answer PARIS under the case-insensitive default,
counts as correct: full points and no review flag. -/
theorem gradeFillInBlank_amended_witness :
    (gradeFillInBlank (.jobj [("b1", .jarr [.jstr "Paris", .jstr "paris"])])
       (.jobj [("b1", .jstr "PARIS")]) 4 {}).score = 4 ∧
    (gradeFillInBlank (.jobj [("b1", .jarr [.jstr "Paris", .jstr "paris"])])
       (.jobj [("b1", .jstr "PARIS")]) 4 {}).needsManualGrading = false := by
  have h := gradeFillInBlank_amended [("b1", .jarr [.jstr "Paris", .jstr "paris"])]
      [("b1", .jstr "PARIS")] 4 {} rfl (List.cons_ne_nil _ _)
  constructor
  · rw [h.1]
    have hl : ([("b1", JVal.jarr [.jstr "Paris", .jstr "paris"])].filter
        (specBlankCorrect {} [("b1", .jstr "PARIS")])).length = 1 := by decide
    rw [hl, round2, jsRound]
    norm_num
  · rw [h.2]
    rfl

/-- When no question of the run is flagged for manual grading, the loop's
running total equals both the sum of the scores stored on the response
rows it wrote and the sum of the scores it reports. -/
theorem gradeLoop_auto_sums (simf : String → String → ℚ) (qs : List QRow)
    (h : ∀ g ∈ (gradeLoop simf qs).2.1, g.needsManualGrading = false) :
    responseScoreSum (gradeLoop simf qs).1 = (gradeLoop simf qs).2.2 ∧
    ((gradeLoop simf qs).2.1.map (fun g => g.score)).sum = (gradeLoop simf qs).2.2 := by
  induction qs with
  | nil => simp [gradeLoop, responseScoreSum]
  | cons q rest ih =>
    cases hq : q.response with
    | none =>
      have hh : ∀ g ∈ (gradeLoop simf rest).2.1, g.needsManualGrading = false := by
        intro g hg
        apply h
        simp only [gradeLoop, hq, List.mem_cons]
        exact Or.inr hg
      obtain ⟨ih1, ih2⟩ := ih hh
      constructor
      all_goals simp [gradeLoop, hq, responseScoreSum, ih2]
      all_goals simpa [responseScoreSum] using ih1
    | some r =>
      have hh : ∀ g ∈ (gradeLoop simf rest).2.1, g.needsManualGrading = false := by
        intro g hg
        apply h
        simp only [gradeLoop, hq, List.mem_cons]
        exact Or.inr hg
      have hhead : (gradeQuestion simf q r).needsManualGrading = false := by
        have hmem : (⟨q.question_id, some r.response_id, (gradeQuestion simf q r).score,
            (gradeQuestion simf q r).feedback, (gradeQuestion simf q r).needsManualGrading⟩ :
            GradingResult) ∈ (gradeLoop simf (q :: rest)).2.1 := by
          simp [gradeLoop, hq, List.mem_cons]
        exact h _ hmem
      obtain ⟨ih1, ih2⟩ := ih hh
      constructor
      all_goals simp [gradeLoop, hq, responseScoreSum, hhead, ih2]
      all_goals simpa [responseScoreSum] using ih1

/-- C1: on an existing, not-yet-graded submission, gradeSubmission
finalizes (status graded, totalScore = the sum of the reported
per-response scores) exactly when no question was flagged
needsManualGrading; when any question was flagged, status and totalScore
are unchanged; and whenever the resulting totalScore is present it equals
the sum of all stored Response.score values of the submission. -/
theorem gradeSubmission_finalization (simf : String → String → ℚ) (st : GState)
    (hstatus : st.submission.status ≠ "graded")
    (htotal : st.submission.total_score = none) :
    ∃ body st', gradeSubmission simf (some st) = (.ok body, some st') ∧
      (body.gradingResults.all (fun g => !g.needsManualGrading) = true →
        st'.submission.status = "graded" ∧
        st'.submission.total_score = some ((body.gradingResults.map (fun g => g.score)).sum)) ∧
      (body.gradingResults.any (fun g => g.needsManualGrading) = true →
        st'.submission.status = st.submission.status ∧
        st'.submission.total_score = st.submission.total_score) ∧
      (st'.submission.status = "graded" →
        body.gradingResults.all (fun g => !g.needsManualGrading) = true) ∧
      (∀ x, st'.submission.total_score = some x → x = responseScoreSum st'.questions) := by
  have hred : gradeSubmission simf (some st) =
      (.ok ⟨st.submission.submission_id, (gradeLoop simf st.questions).2.2,
            st.assignment_total_points,
            (gradeLoop simf st.questions).2.1.any (fun g => g.needsManualGrading),
            (gradeLoop simf st.questions).2.1⟩,
       some ⟨(if (gradeLoop simf st.questions).2.1.any (fun g => g.needsManualGrading) then
                st.submission
              else ⟨st.submission.submission_id, st.submission.assignment_id,
                    st.submission.student_id, "graded",
                    some (gradeLoop simf st.questions).2.2, st.submission.graded_by⟩),
             st.assignment_total_points, (gradeLoop simf st.questions).1⟩) := by
    simp [gradeSubmission, hstatus]
  by_cases hm : (gradeLoop simf st.questions).2.1.any (fun g => g.needsManualGrading) = true
  · refine ⟨⟨st.submission.submission_id, (gradeLoop simf st.questions).2.2,
        st.assignment_total_points, true, (gradeLoop simf st.questions).2.1⟩,
      ⟨st.submission, st.assignment_total_points, (gradeLoop simf st.questions).1⟩,
      ?_, ?_, ?_, ?_, ?_⟩
    · rw [hred]
      simp [hm]
    · intro hall
      exfalso
      obtain ⟨g, hg, hgm⟩ := List.any_eq_true.mp hm
      have := List.all_eq_true.mp hall g hg
      simp [hgm] at this
    · exact fun _ => ⟨rfl, rfl⟩
    · intro hg
      exact absurd hg hstatus
    · intro x hx
      rw [htotal] at hx
      cases hx
  · have hmf : (gradeLoop simf st.questions).2.1.any (fun g => g.needsManualGrading) = false :=
      Bool.eq_false_iff.mpr hm
    have hall : ∀ g ∈ (gradeLoop simf st.questions).2.1, g.needsManualGrading = false := by
      intro g hg
      by_contra hc
      have hgt : g.needsManualGrading = true := by
        cases hb : g.needsManualGrading with
        | false => exact absurd hb hc
        | true => rfl
      exact hm (List.any_eq_true.mpr ⟨g, hg, hgt⟩)
    obtain ⟨hsum1, hsum2⟩ := gradeLoop_auto_sums simf st.questions hall
    refine ⟨⟨st.submission.submission_id, (gradeLoop simf st.questions).2.2,
        st.assignment_total_points, false, (gradeLoop simf st.questions).2.1⟩,
      ⟨⟨st.submission.submission_id, st.submission.assignment_id,
        st.submission.student_id, "graded",
        some (gradeLoop simf st.questions).2.2, st.submission.graded_by⟩,
       st.assignment_total_points, (gradeLoop simf st.questions).1⟩,
      ?_, ?_, ?_, ?_, ?_⟩
    · rw [hred]
      simp [hmf]
    · exact fun _ => ⟨rfl, congrArg some hsum2.symm⟩
    · intro hany
      rw [hmf] at hany
      cases hany
    · intro _
      exact List.all_eq_true.mpr fun g hg => by simp [hall g hg]
    · intro x hx
      have : (gradeLoop simf st.questions).2.2 = x := Option.some.inj hx
      rw [← this]
      exact hsum1.symm

/-- C1 witness: the finalization theorem applied to a submitted submission
holding one correctly answered true/false question. -/
theorem gradeSubmission_finalization_witness :
    ∃ body st', gradeSubmission (simfW 0) (some stC1w) = (.ok body, some st') ∧
      (body.gradingResults.all (fun g => !g.needsManualGrading) = true →
        st'.submission.status = "graded" ∧
        st'.submission.total_score = some ((body.gradingResults.map (fun g => g.score)).sum)) ∧
      (body.gradingResults.any (fun g => g.needsManualGrading) = true →
        st'.submission.status = stC1w.submission.status ∧
        st'.submission.total_score = stC1w.submission.total_score) ∧
      (st'.submission.status = "graded" →
        body.gradingResults.all (fun g => !g.needsManualGrading) = true) ∧
      (∀ x, st'.submission.total_score = some x → x = responseScoreSum st'.questions) :=
  gradeSubmission_finalization (simfW 0) stC1w (by decide) rfl

/-- The per-category computation agrees with the specification's formula:
percentage earned/total x 100 (0 when the denominator is 0, which under
non-negative points is exactly when the code's strict-positivity guard
fails) and weighted score percentage x weight / 100. -/
theorem gradeCategory_spec (db : CourseDB) (studentId : Nat) (cat : CategoryRow)
    (hpts : ∀ a ∈ db.assignments, 0 ≤ a.total_points) :
    gradeCategory db studentId cat =
      ⟨cat.category_id, cat.name, cat.weight, specPct db studentId cat.category_id,
       specPct db studentId cat.category_id * cat.weight / 100⟩ := by
  by_cases hfe : db.assignments.filter
      (fun a => a.category_id == cat.category_id && a.is_published) = []
  · have h0 : specTotalPoints db cat.category_id = 0 := by
      simp [specTotalPoints, hfe]
    simp [gradeCategory, assignmentRows, hfe, specPct, h0]
  · have hie : (assignmentRows db studentId cat.category_id).isEmpty = false := by
      simp [assignmentRows, List.isEmpty_iff, hfe]
    have htp : ((assignmentRows db studentId cat.category_id).map
        (fun r => r.1.total_points)).sum = specTotalPoints db cat.category_id := by
      simp only [assignmentRows, List.map_map]
      rfl
    have hep : ((assignmentRows db studentId cat.category_id).map
        (fun r => r.2.getD 0)).sum = specEarnedPoints db studentId cat.category_id := by
      simp only [assignmentRows, List.map_map]
      rfl
    have hnn : 0 ≤ specTotalPoints db cat.category_id := by
      apply List.sum_nonneg
      intro x hx
      obtain ⟨a, ha, rfl⟩ := List.mem_map.mp hx
      exact hpts a (List.mem_filter.mp ha).1
    by_cases h0 : specTotalPoints db cat.category_id = 0
    · have hng : ¬ (0 : ℚ) < ((assignmentRows db studentId cat.category_id).map
          (fun r => r.1.total_points)).sum := by
        rw [htp, h0]
        exact lt_irrefl 0
      simp [gradeCategory, hie, hng, specPct, h0]
    · have hpos : specTotalPoints db cat.category_id > 0 :=
        lt_of_le_of_ne hnn (Ne.symm h0)
      simp only [gradeCategory, hie, Bool.false_eq_true, if_false, htp, hep, hpos, if_true,
        specPct, h0]
      simp only [CategoryGrade.mk.injEq]
      refine ⟨trivial, trivial, trivial, trivial, by ring⟩

/-- C2: for every student and course with at least one assignment category
and non-negative assignment points, calculateFinalGrade returns per
category exactly the specification's numbers - percentage =
earnedPoints/totalPoints x 100 with earned summed over graded submissions
only (missing or ungraded contribute 0 while their assignment's points
stay in the denominator), 0 when the denominator is 0 and for categories
without published assignments - and finalGrade is the sum over categories
of percentage x weight / 100. -/
theorem calculateFinalGrade_weighted (db : CourseDB) (studentId courseId : Nat)
    (hcats : db.categories.filter (fun c => c.course_id == courseId) ≠ [])
    (hpts : ∀ a ∈ db.assignments, 0 ≤ a.total_points) :
    ∃ body db', calculateFinalGrade db studentId courseId = (.ok body, db') ∧
      body.categoryGrades =
        (db.categories.filter (fun c => c.course_id == courseId)).map (fun cat =>
          ⟨cat.category_id, cat.name, cat.weight, specPct db studentId cat.category_id,
           specPct db studentId cat.category_id * cat.weight / 100⟩) ∧
      body.finalGrade =
        ((db.categories.filter (fun c => c.course_id == courseId)).map (fun cat =>
          specPct db studentId cat.category_id * cat.weight / 100)).sum := by
  have hie : (db.categories.filter (fun c => c.course_id == courseId)).isEmpty = false := by
    simp [List.isEmpty_iff, hcats]
  have hmap : (db.categories.filter (fun c => c.course_id == courseId)).map
        (gradeCategory db studentId) =
      (db.categories.filter (fun c => c.course_id == courseId)).map (fun cat =>
        (⟨cat.category_id, cat.name, cat.weight, specPct db studentId cat.category_id,
          specPct db studentId cat.category_id * cat.weight / 100⟩ : CategoryGrade)) :=
    List.map_congr_left (fun cat _ => gradeCategory_spec db studentId cat hpts)
  refine ⟨⟨studentId, courseId,
      (((db.categories.filter (fun c => c.course_id == courseId)).map
        (gradeCategory db studentId)).map (fun c => c.weightedScore)).sum,
      resolveLetterGrade db.scale
        ((((db.categories.filter (fun c => c.course_id == courseId)).map
          (gradeCategory db studentId)).map (fun c => c.weightedScore)).sum),
      (db.categories.filter (fun c => c.course_id == courseId)).map
        (gradeCategory db studentId)⟩,
    { db with enrollments := db.enrollments.map (fun e =>
        if e.student_id == studentId && e.course_id == courseId then
          ⟨e.student_id, e.course_id,
           some ((((db.categories.filter (fun c => c.course_id == courseId)).map
             (gradeCategory db studentId)).map (fun c => c.weightedScore)).sum)⟩
        else e) },
    ?_, ?_, ?_⟩
  · simp [calculateFinalGrade, hie]
  · exact hmap
  · rw [hmap, List.map_map]
    rfl

/-- C2 witness: the theorem applied to the specification's worked example,
together with the resulting body - Homework 90 percent weighted 36, Exams
90 percent weighted 54, final grade 90. -/
theorem calculateFinalGrade_weighted_witness :
    (∃ body db', calculateFinalGrade dbEx 1 1 = (.ok body, db') ∧
      body.categoryGrades =
        (dbEx.categories.filter (fun c => c.course_id == 1)).map (fun cat =>
          ⟨cat.category_id, cat.name, cat.weight, specPct dbEx 1 cat.category_id,
           specPct dbEx 1 cat.category_id * cat.weight / 100⟩) ∧
      body.finalGrade =
        ((dbEx.categories.filter (fun c => c.course_id == 1)).map (fun cat =>
          specPct dbEx 1 cat.category_id * cat.weight / 100)).sum) ∧
    (calculateFinalGrade dbEx 1 1).1 =
      .ok ⟨1, 1, 90, none, [⟨1, "Homework", 40, 90, 36⟩, ⟨2, "Exams", 60, 90, 54⟩]⟩ := by
  constructor
  · exact calculateFinalGrade_weighted dbEx 1 1 (by decide) (by decide)
  · have h1 : (calculateFinalGrade dbEx 1 1).1 =
        .ok ⟨1, 1, (18:ℚ)/20 * 100 / 100 * 40 + ((45:ℚ)/50 * 100 / 100 * 60 + 0),
          resolveLetterGrade [] ((18:ℚ)/20 * 100 / 100 * 40 + ((45:ℚ)/50 * 100 / 100 * 60 + 0)),
          [⟨1, "Homework", 40, (18:ℚ)/20 * 100, (18:ℚ)/20 * 100 / 100 * 40⟩,
           ⟨2, "Exams", 60, (45:ℚ)/50 * 100, (45:ℚ)/50 * 100 / 100 * 60⟩]⟩ := by
      norm_num [calculateFinalGrade, gradeCategory, assignmentRows, dbEx]
    rw [h1]
    norm_num [resolveLetterGrade]

end Grandmas
